import Mathlib

/-
  Shallow embedding of the bounded tool-calling execution loop:
  - llama_index/core/tools/calling.py   (call_tool, acall_tool, call_tool_with_selection,
    acall_tool_with_selection)
  - llama_index/core/agent/function_calling/step.py   (get_function_by_name,
    FunctionCallingAgentWorker: initialize_step, get_tools, get_all_messages,
    _call_function, _acall_function, run_step, arun_step, finalize_task)

  Python exceptions are modelled with Except String; dicts with ordered association
  lists; mutation with explicit state passing.  Components of llama_index that are
  referenced but not part of the source slice (ChatMemoryBuffer, adapt_to_async_tool,
  TaskStep.get_next_step, add_user_step_to_memory, str rendering of ToolOutput and of
  a chat response) are modelled from the spec, each marked in its doc comment.
-/

namespace LlamaAgent

inductive MessageRole where
  | user
  | assistant
  | tool
  | system
deriving DecidableEq, Repr

/-- A chat message: role, content, and the additional kwargs mapping
(used for tool messages: tool name and call id). -/
structure ChatMessage where
  role : MessageRole
  content : String
  additional_kwargs : List (String × String) := []
deriving DecidableEq, Repr

/-- ToolOutput from llama_index.core.tools.types: display content, tool name,
raw input (the argument mapping given to the tool), raw output (here the
stringified native result or stringified error). -/
structure ToolOutput where
  content : String
  tool_name : String
  raw_input : List (String × String)
  raw_output : String
deriving DecidableEq, Repr

/-- ToolSelection produced by the backend: tool name, call identifier,
argument mapping (tool_kwargs). -/
structure ToolSelection where
  tool_name : String
  tool_id : String
  tool_kwargs : List (String × String)
deriving DecidableEq, Repr

/-- How a Python callable is invoked: one positional value (`tool(single_arg)`)
or the whole mapping as named parameters (`tool(**arguments)`). -/
inductive ToolArgs where
  | positional (value : String)
  | keyword (args : List (String × String))
deriving DecidableEq, Repr

/-- A tool: its metadata name, the property names of its declared parameter
schema (`tool.metadata.get_parameters_dict()["properties"]`), and its blocking
and suspending invocations.  A raising invocation is modelled as Except.error
carrying str(e). -/
structure BaseTool where
  name : String
  schema_properties : List String
  call : ToolArgs → Except String ToolOutput
  acall : ToolArgs → Except String ToolOutput

/-- Modelled from the spec: adapt_to_async_tool (llama_index.core.tools.types,
not under src/) adapts every tool to a uniform asynchronous-capable invocation
contract.  In this model every BaseTool already carries both a blocking and a
suspending invocation, so the adaptation is the identity. -/
def adapt_to_async_tool (tool : BaseTool) : BaseTool := tool

/-- The argument form chosen by call_tool and acall_tool: if the declared schema
has exactly one property and the call supplies exactly one argument, the single
argument value is passed positionally (`arguments[next(iter(arguments))]`);
otherwise the full mapping is passed as named parameters. -/
def selectArgs (tool : BaseTool) (arguments : List (String × String)) : ToolArgs :=
  if tool.schema_properties.length == 1 && arguments.length == 1 then
    ToolArgs.positional (((arguments.head?).map Prod.snd).getD "")
  else
    ToolArgs.keyword arguments

/-- The except-to-value boundary of call_tool and acall_tool: a normal result is
returned as is, an exception e becomes a ToolOutput with content
"Encountered error: " ++ str(e) and raw_output str(e). -/
def toolCallResult (tool : BaseTool) (arguments : List (String × String)) :
    Except String ToolOutput → ToolOutput
  | Except.ok output => output
  | Except.error e =>
      { content := "Encountered error: " ++ e
        tool_name := tool.name
        raw_input := arguments
        raw_output := e }

/-- calling.call_tool: call a tool with arguments, catching any exception. -/
def call_tool (tool : BaseTool) (arguments : List (String × String)) : ToolOutput :=
  toolCallResult tool arguments (tool.call (selectArgs tool arguments))

/-- calling.acall_tool: call a tool with arguments asynchronously, through
adapt_to_async_tool, catching any exception. -/
def acall_tool (tool : BaseTool) (arguments : List (String × String)) : ToolOutput :=
  let async_tool := adapt_to_async_tool tool
  toolCallResult tool arguments (async_tool.acall (selectArgs tool arguments))

/-- The dict comprehension `{tool.metadata.name: tool for tool in tools}` followed
by lookup: a later tool with the same name overwrites an earlier one. -/
def lookupToolByName (tools : List BaseTool) (name : String) : Option BaseTool :=
  (tools.reverse).find? (fun t => t.name == name)

/-- calling.call_tool_with_selection: look the tool up by name (a missing name is
a raised KeyError, modelled as Except.error) and call it with the selection's
kwargs. -/
def call_tool_with_selection (tool_call : ToolSelection) (tools : List BaseTool) :
    Except String ToolOutput :=
  match lookupToolByName tools tool_call.tool_name with
  | some tool => Except.ok (call_tool tool tool_call.tool_kwargs)
  | none => Except.error ("KeyError: " ++ tool_call.tool_name)

/-- calling.acall_tool_with_selection: the suspending variant. -/
def acall_tool_with_selection (tool_call : ToolSelection) (tools : List BaseTool) :
    Except String ToolOutput :=
  match lookupToolByName tools tool_call.tool_name with
  | some tool => Except.ok (acall_tool tool tool_call.tool_kwargs)
  | none => Except.error ("KeyError: " ++ tool_call.tool_name)

/-- step.get_function_by_name: raises ValueError when the name is absent. -/
def get_function_by_name (tools : List BaseTool) (name : String) : Except String BaseTool :=
  match lookupToolByName tools name with
  | some tool => Except.ok tool
  | none => Except.error ("Tool with name " ++ name ++ " not found")

/-- TaskState: the per-task ephemeral execution context held in
`task.extra_state` after initialize_step: accumulated tool outputs (sources),
the call counter (n_function_calls), and the ephemeral message buffer
(new_memory, a ChatMemoryBuffer modelled from the spec as an ordered sequence:
put appends, get_all returns all, reset clears). -/
structure TaskState where
  sources : List ToolOutput
  n_function_calls : Nat
  new_memory : List ChatMessage
deriving DecidableEq, Repr

/-- Task: identity, original input, durable memory (task.memory, a memory store
modelled from the spec as an ordered sequence of messages: get and get_all
return it, set replaces it), and the ephemeral TaskState. -/
structure Task where
  task_id : String
  input : String
  memory : List ChatMessage
  extra_state : TaskState
deriving DecidableEq, Repr

/-- TaskStep: identity, owning task, optional raw input (only the first step of
a task carries the user's input). -/
structure TaskStep where
  task_id : String
  step_id : String
  input : Option String
deriving DecidableEq, Repr

/-- Modelled from the spec: TaskStep.get_next_step (llama_index.core.agent.types,
not under src/) creates the continuation step for the same task with a fresh
step id and the given input. -/
def TaskStep.get_next_step (step : TaskStep) (step_id : String) (input : Option String) :
    TaskStep :=
  { task_id := step.task_id, step_id := step_id, input := input }

/-- AgentChatResponse: the produced response string plus the sources list. -/
structure AgentChatResponse where
  response : String
  sources : List ToolOutput
deriving DecidableEq, Repr

/-- TaskStepOutput: the step's result: response, the step it answers, the
is_last flag, and the (zero or one) continuation steps. -/
structure TaskStepOutput where
  output : AgentChatResponse
  task_step : TaskStep
  is_last : Bool
  next_steps : List TaskStep
deriving DecidableEq, Repr

/-- The backend's answer to one chat_with_tool call: the response message put
into the ephemeral buffer, the optional tool selection extracted by
_get_tool_call_from_response with error_on_no_tool_call False, and the
str rendering of the response used for AgentChatResponse (modelled from the
spec as an uninterpreted string field of the response). -/
structure ChatResponse where
  message : ChatMessage
  tool_call : Option ToolSelection
  response_str : String
deriving DecidableEq, Repr

/-- The backend interface: chat_with_tools(tools, chat_history) and its
suspending counterpart are functions from the tool catalog and message
context to a ChatResponse. -/
def Backend : Type := List BaseTool → List ChatMessage → ChatResponse

/-- FunctionCallingAgentWorker configuration: the prefix messages and the
tool-sourcing strategy `self._get_tools` fixed at construction (fixed list,
retriever, or no tools — all three are functions from the input text). -/
structure FunctionCallingAgentWorker where
  prefix_messages : List ChatMessage
  tool_source : String → List BaseTool

/-- FunctionCallingAgentWorker.get_tools: resolve the catalog for the given
input and adapt every tool to the async-capable contract. -/
def get_tools (w : FunctionCallingAgentWorker) (input : String) : List BaseTool :=
  (w.tool_source input).map adapt_to_async_tool

/-- FunctionCallingAgentWorker.initialize_step: attach a fresh TaskState (empty
sources, zero n_function_calls, empty ephemeral buffer) to the task and create
the first step, carrying the task's input.  The uuid4 step id is supplied as a
parameter. -/
def initialize_step (task : Task) (step_id : String) : Task × TaskStep :=
  let task_state : TaskState := { sources := [], n_function_calls := 0, new_memory := [] }
  ({ task with extra_state := task_state },
   { task_id := task.task_id, step_id := step_id, input := some task.input })

/-- FunctionCallingAgentWorker.get_all_messages: prefix messages ++ durable
memory ++ ephemeral buffer. -/
def get_all_messages (w : FunctionCallingAgentWorker) (task : Task) : List ChatMessage :=
  w.prefix_messages ++ task.memory ++ task.extra_state.new_memory

/-- Modelled from the spec: add_user_step_to_memory (llama_index.core.agent.utils,
not under src/) appends the step's raw input as a user message to the ephemeral
buffer.  run_step only calls it when step.input is present. -/
def add_user_step_to_memory (step : TaskStep) (memory : List ChatMessage) :
    List ChatMessage :=
  memory ++ [{ role := MessageRole.user, content := step.input.getD "", additional_kwargs := [] }]

/-- The `if step.input is not None` guard at the top of run_step and arun_step. -/
def memoryAfterInput (step : TaskStep) (memory : List ChatMessage) : List ChatMessage :=
  if step.input.isSome then add_user_step_to_memory step memory else memory

/-- Modelled from the spec: str(ToolOutput) (llama_index.core.tools.types, not
under src/) renders the output's display content, which becomes the content of
the tool-role message. -/
def toolOutputStr (output : ToolOutput) : String := output.content

/-- FunctionCallingAgentWorker._call_function: look the tool up (ValueError if
absent), invoke it through call_tool_with_selection, then append the tool-role
function message to the ephemeral buffer and the ToolOutput to sources.
Returns the updated (buffer, sources) pair; a raised lookup error propagates. -/
def _call_function (tools : List BaseTool) (tool_call : ToolSelection)
    (memory : List ChatMessage) (sources : List ToolOutput) :
    Except String (List ChatMessage × List ToolOutput) :=
  match get_function_by_name tools tool_call.tool_name with
  | Except.error e => Except.error e
  | Except.ok _ =>
    match call_tool_with_selection tool_call tools with
    | Except.error e => Except.error e
    | Except.ok tool_output =>
      let function_message : ChatMessage :=
        { role := MessageRole.tool
          content := toolOutputStr tool_output
          additional_kwargs :=
            [(("name"), tool_call.tool_name), (("tool_call_id"), tool_call.tool_id)] }
      Except.ok (memory ++ [function_message], sources ++ [tool_output])

/-- FunctionCallingAgentWorker._acall_function: the suspending variant, using
acall_tool_with_selection. -/
def _acall_function (tools : List BaseTool) (tool_call : ToolSelection)
    (memory : List ChatMessage) (sources : List ToolOutput) :
    Except String (List ChatMessage × List ToolOutput) :=
  match get_function_by_name tools tool_call.tool_name with
  | Except.error e => Except.error e
  | Except.ok _ =>
    match acall_tool_with_selection tool_call tools with
    | Except.error e => Except.error e
    | Except.ok tool_output =>
      let function_message : ChatMessage :=
        { role := MessageRole.tool
          content := toolOutputStr tool_output
          additional_kwargs :=
            [(("name"), tool_call.tool_name), (("tool_call_id"), tool_call.tool_id)] }
      Except.ok (memory ++ [function_message], sources ++ [tool_output])

/-- FunctionCallingAgentWorker.run_step: one blocking step.  The backend
chat_with_tool is a parameter, as is the uuid4 id of the would-be continuation
step.  Returns the mutated task together with the TaskStepOutput; a raised
lookup error propagates as Except.error. -/
def run_step (w : FunctionCallingAgentWorker) (chat_with_tool : Backend)
    (next_step_id : String) (step : TaskStep) (task : Task) :
    Except String (Task × TaskStepOutput) :=
  let memory0 := memoryAfterInput step task.extra_state.new_memory
  let task0 : Task := { task with extra_state := { task.extra_state with new_memory := memory0 } }
  let tools := get_tools w task.input
  let response := chat_with_tool tools (get_all_messages w task0)
  let memory1 := task0.extra_state.new_memory ++ [response.message]
  let task1 : Task := { task0 with extra_state := { task0.extra_state with new_memory := memory1 } }
  match response.tool_call with
  | none =>
      let agent_response : AgentChatResponse :=
        { response := response.response_str, sources := task1.extra_state.sources }
      Except.ok (task1,
        { output := agent_response, task_step := step, is_last := true, next_steps := [] })
  | some tc =>
      match _call_function tools tc task1.extra_state.new_memory task1.extra_state.sources with
      | Except.error e => Except.error e
      | Except.ok (memory2, sources2) =>
          let task2 : Task := { task1 with extra_state :=
            { task1.extra_state with new_memory := memory2, sources := sources2 } }
          let new_steps := [step.get_next_step next_step_id none]
          let agent_response : AgentChatResponse :=
            { response := response.response_str, sources := task2.extra_state.sources }
          Except.ok (task2,
            { output := agent_response, task_step := step, is_last := false,
              next_steps := new_steps })

/-- FunctionCallingAgentWorker.arun_step: one suspending step, textually the
same algorithm with achat_with_tool and _acall_function. -/
def arun_step (w : FunctionCallingAgentWorker) (achat_with_tool : Backend)
    (next_step_id : String) (step : TaskStep) (task : Task) :
    Except String (Task × TaskStepOutput) :=
  let memory0 := memoryAfterInput step task.extra_state.new_memory
  let task0 : Task := { task with extra_state := { task.extra_state with new_memory := memory0 } }
  let tools := get_tools w task.input
  let response := achat_with_tool tools (get_all_messages w task0)
  let memory1 := task0.extra_state.new_memory ++ [response.message]
  let task1 : Task := { task0 with extra_state := { task0.extra_state with new_memory := memory1 } }
  match response.tool_call with
  | none =>
      let agent_response : AgentChatResponse :=
        { response := response.response_str, sources := task1.extra_state.sources }
      Except.ok (task1,
        { output := agent_response, task_step := step, is_last := true, next_steps := [] })
  | some tc =>
      match _acall_function tools tc task1.extra_state.new_memory task1.extra_state.sources with
      | Except.error e => Except.error e
      | Except.ok (memory2, sources2) =>
          let task2 : Task := { task1 with extra_state :=
            { task1.extra_state with new_memory := memory2, sources := sources2 } }
          let new_steps := [step.get_next_step next_step_id none]
          let agent_response : AgentChatResponse :=
            { response := response.response_str, sources := task2.extra_state.sources }
          Except.ok (task2,
            { output := agent_response, task_step := step, is_last := false,
              next_steps := new_steps })

/-- FunctionCallingAgentWorker.finalize_task: durable memory becomes its
previous content followed by the whole ephemeral buffer, and the ephemeral
buffer is reset. -/
def finalize_task (task : Task) : Task :=
  { task with
    memory := task.memory ++ task.extra_state.new_memory
    extra_state := { task.extra_state with new_memory := [] } }

/-! Concrete fixtures: a small worker, tools, backends and a task, used to
evaluate the definitions on closed inputs. -/

/-- Renders how a tool was invoked, so binding is observable in outputs. -/
def renderToolArgs : ToolArgs → String
  | ToolArgs.positional v => "positional " ++ v
  | ToolArgs.keyword _ => "keyword call"

/-- A one-parameter tool that reports how it was invoked. -/
def echoTool : BaseTool where
  name := "echo"
  schema_properties := [("x")]
  call := fun a => Except.ok
    { content := renderToolArgs a, tool_name := "echo", raw_input := [], raw_output := "" }
  acall := fun a => Except.ok
    { content := renderToolArgs a, tool_name := "echo", raw_input := [], raw_output := "" }

/-- A tool whose every invocation raises. -/
def failTool : BaseTool where
  name := "boom"
  schema_properties := [("x")]
  call := fun _ => Except.error "kaboom"
  acall := fun _ => Except.error "kaboom"

/-- A worker with one system prefix message and a fixed tool list. -/
def cw : FunctionCallingAgentWorker where
  prefix_messages :=
    [{ role := MessageRole.system, content := "be helpful", additional_kwargs := [] }]
  tool_source := fun _ => [echoTool]

def echoSelection : ToolSelection where
  tool_name := "echo"
  tool_id := "call-1"
  tool_kwargs := [(("x"), ("5"))]

/-- A backend that always selects the echo tool. -/
def cbTool : Backend := fun _ _ =>
  { message := { role := MessageRole.assistant, content := "calling echo", additional_kwargs := [] }
    tool_call := some echoSelection
    response_str := "calling echo" }

/-- A backend that never selects a tool. -/
def cbNone : Backend := fun _ _ =>
  { message := { role := MessageRole.assistant, content := "done", additional_kwargs := [] }
    tool_call := none
    response_str := "done" }

def ghostSelection : ToolSelection where
  tool_name := "ghost"
  tool_id := "call-9"
  tool_kwargs := []

/-- A backend that selects a tool name absent from the catalog. -/
def cbGhost : Backend := fun _ _ =>
  { message := { role := MessageRole.assistant, content := "calling ghost", additional_kwargs := [] }
    tool_call := some ghostSelection
    response_str := "calling ghost" }

/-- A task in its initial state (as left by initialize_step). -/
def ctask : Task where
  task_id := "task-1"
  input := "hi"
  memory := []
  extra_state := { sources := [], n_function_calls := 0, new_memory := [] }

/-- The first step of ctask: it carries the task's raw input. -/
def cstep : TaskStep where
  task_id := "task-1"
  step_id := "s0"
  input := some "hi"

def fallbackPair : Task × TaskStepOutput :=
  (ctask, { output := { response := "", sources := [] },
            task_step := { task_id := "", step_id := "", input := none },
            is_last := true, next_steps := [] })

/-- The concrete result of one blocking tool-selecting step on ctask. -/
def resPair : Task × TaskStepOutput :=
  ((run_step cw cbTool ("n1") cstep ctask).toOption).getD fallbackPair

/-- The concrete result of one suspending tool-selecting step on ctask. -/
def aresPair : Task × TaskStepOutput :=
  ((arun_step cw cbTool ("n1") cstep ctask).toOption).getD fallbackPair

/-! Theorems. -/

/-- C1: if the tool invocation performed by call_tool (or by acall_tool through
the async adapter) raises an exception with message e, the exception is caught
and converted into a ToolOutput whose content is "Encountered error: " ++ e and
whose raw_output is e; call_tool and acall_tool are total, so the exception is
never re-raised past the invoker. -/
theorem call_tool_error_capture (tool : BaseTool) (arguments : List (String × String))
    (e : String) :
    (tool.call (selectArgs tool arguments) = Except.error e →
      call_tool tool arguments =
        { content := "Encountered error: " ++ e, tool_name := tool.name,
          raw_input := arguments, raw_output := e }) ∧
    ((adapt_to_async_tool tool).acall (selectArgs tool arguments) = Except.error e →
      acall_tool tool arguments =
        { content := "Encountered error: " ++ e, tool_name := tool.name,
          raw_input := arguments, raw_output := e }) := by
  constructor
  · intro h
    simp [call_tool, h, toolCallResult]
  · intro h
    simp [acall_tool, h, toolCallResult]

/-- Witness for C1: a tool raising "kaboom" yields the error-capturing outputs
on both the blocking and the suspending path. -/
theorem call_tool_error_capture_applied :
    call_tool failTool [(("x"), ("1"))] =
      { content := "Encountered error: " ++ "kaboom", tool_name := "boom",
        raw_input := [(("x"), ("1"))], raw_output := "kaboom" } ∧
    acall_tool failTool [(("x"), ("1"))] =
      { content := "Encountered error: " ++ "kaboom", tool_name := "boom",
        raw_input := [(("x"), ("1"))], raw_output := "kaboom" } :=
  ⟨(call_tool_error_capture failTool [(("x"), ("1"))] ("kaboom")).1 rfl,
   (call_tool_error_capture failTool [(("x"), ("1"))] ("kaboom")).2 rfl⟩

/-- C3: finalize_task makes durable memory the previous durable memory followed,
in order, by the whole ephemeral buffer, and leaves the ephemeral buffer empty. -/
theorem finalize_task_order_preserving (task : Task) :
    (finalize_task task).memory = task.memory ++ task.extra_state.new_memory ∧
    (finalize_task task).extra_state.new_memory = [] :=
  ⟨rfl, rfl⟩

/-- C4: when the declared schema has exactly one parameter and the call
supplies exactly one argument, the tool is invoked with that argument's value
positionally; in every other case it is invoked with the full argument mapping
as named parameters. -/
theorem call_tool_param_binding (tool : BaseTool) (arguments : List (String × String)) :
    (∀ k v, tool.schema_properties.length = 1 → arguments = [(k, v)] →
      call_tool tool arguments =
        toolCallResult tool arguments (tool.call (ToolArgs.positional v))) ∧
    ((tool.schema_properties.length = 1 ∧ arguments.length = 1 → False) →
      call_tool tool arguments =
        toolCallResult tool arguments (tool.call (ToolArgs.keyword arguments))) := by
  constructor
  · intro k v hs ha
    subst ha
    simp [call_tool, selectArgs, hs]
  · intro h
    have hcond : (tool.schema_properties.length == 1 && arguments.length == 1) = false := by
      rcases Bool.eq_false_or_eq_true (tool.schema_properties.length == 1 && arguments.length == 1)
        with hb | hb
      · rw [Bool.and_eq_true, beq_iff_eq, beq_iff_eq] at hb
        exact absurd hb h
      · exact hb
    simp [call_tool, selectArgs, hcond]

/-- Witness for C4: the call `{x: 5}` on the one-parameter echo tool binds 5
positionally, and a two-argument call on the same tool binds the full mapping
as named parameters. -/
theorem call_tool_param_binding_applied :
    call_tool echoTool [(("x"), ("5"))] =
      toolCallResult echoTool [(("x"), ("5"))] (echoTool.call (ToolArgs.positional ("5"))) ∧
    call_tool echoTool [(("x"), ("1")), (("y"), ("2"))] =
      toolCallResult echoTool [(("x"), ("1")), (("y"), ("2"))]
        (echoTool.call (ToolArgs.keyword [(("x"), ("1")), (("y"), ("2"))])) :=
  ⟨(call_tool_param_binding echoTool [(("x"), ("5"))]).1 ("x") ("5") rfl rfl,
   (call_tool_param_binding echoTool [(("x"), ("1")), (("y"), ("2"))]).2 (by decide)⟩

/-- C8: the message context handed to the backend by run_step is exactly
prefix messages ++ durable memory ++ ephemeral buffer (the buffer after the
first-step user input append), in that order: two backends that agree on that
one context give identical run_step results. -/
theorem backend_context_assembly (w : FunctionCallingAgentWorker) (b1 b2 : Backend)
    (sid : String) (step : TaskStep) (task : Task)
    (h : b1 (get_tools w task.input)
          (w.prefix_messages ++ task.memory ++ memoryAfterInput step task.extra_state.new_memory)
       = b2 (get_tools w task.input)
          (w.prefix_messages ++ task.memory ++ memoryAfterInput step task.extra_state.new_memory)) :
    run_step w b1 sid step task = run_step w b2 sid step task := by
  have hctx : get_all_messages w
      { task with extra_state :=
        { task.extra_state with new_memory := memoryAfterInput step task.extra_state.new_memory } }
      = w.prefix_messages ++ task.memory ++ memoryAfterInput step task.extra_state.new_memory := rfl
  simp only [run_step]
  rw [hctx, h]

/-- Witness for C8: the agreement hypothesis holds trivially for the concrete
tool-selecting backend against itself. -/
theorem backend_context_assembly_applied :
    run_step cw cbTool ("n1") cstep ctask = run_step cw cbTool ("n1") cstep ctask :=
  backend_context_assembly cw cbTool cbTool ("n1") cstep ctask rfl

/-- C5: when the backend returns no tool selection on a task's first step (the
step produced by initialize_step), run_step terminates at once: is_last is
true, the continuation-step list is empty, and the accumulated tool-output
list (both in the task state and in the returned response) is empty. -/
theorem run_step_no_tool_first_step (w : FunctionCallingAgentWorker) (b : Backend)
    (task : Task) (iid nid : String)
    (h : (b (get_tools w task.input)
          (w.prefix_messages ++ task.memory ++
            [{ role := MessageRole.user, content := task.input, additional_kwargs := [] }])).tool_call
         = none) :
    ((run_step w b nid (initialize_step task iid).2 (initialize_step task iid).1).toOption.map
      (fun p => (p.2.is_last, p.2.next_steps, p.2.output.sources, p.1.extra_state.sources)))
      = some (true, [], [], []) := by
  simp only [run_step, initialize_step, memoryAfterInput, add_user_step_to_memory,
    get_all_messages, Option.isSome_some, if_pos, Option.getD_some, List.nil_append]
  rw [h]
  simp [Except.toOption]

/-- Witness for C5: the concrete no-tool backend on the concrete task. -/
theorem run_step_no_tool_first_step_applied :
    ((run_step cw cbNone ("n0") (initialize_step ctask ("i0")).2
        (initialize_step ctask ("i0")).1).toOption.map
      (fun p => (p.2.is_last, p.2.next_steps, p.2.output.sources, p.1.extra_state.sources)))
      = some (true, [], [], []) :=
  run_step_no_tool_first_step cw cbNone ctask ("i0") ("n0") rfl

/-- C7: when the backend's selection names a tool absent from the resolved
catalog, run_step propagates the lookup error (the ValueError raised by
get_function_by_name) instead of converting it into a ToolOutput. -/
theorem missing_tool_error_propagates (w : FunctionCallingAgentWorker) (b : Backend)
    (sid : String) (step : TaskStep) (task : Task) (tc : ToolSelection)
    (hsel : (b (get_tools w task.input)
        (w.prefix_messages ++ task.memory ++ memoryAfterInput step task.extra_state.new_memory)).tool_call
        = some tc)
    (habs : lookupToolByName (get_tools w task.input) tc.tool_name = none) :
    run_step w b sid step task =
      Except.error ("Tool with name " ++ tc.tool_name ++ " not found") := by
  have hctx : get_all_messages w
      { task with extra_state :=
        { task.extra_state with new_memory := memoryAfterInput step task.extra_state.new_memory } }
      = w.prefix_messages ++ task.memory ++ memoryAfterInput step task.extra_state.new_memory := rfl
  simp only [run_step]
  rw [hctx, hsel]
  simp only [_call_function, get_function_by_name, habs]

/-- Witness for C7: the backend selecting the absent name "ghost" makes the
concrete step raise. -/
theorem missing_tool_error_propagates_applied :
    run_step cw cbGhost ("n1") cstep ctask =
      Except.error ("Tool with name " ++ "ghost" ++ " not found") :=
  missing_tool_error_propagates cw cbGhost ("n1") cstep ctask ghostSelection rfl rfl

/-- C10: every successful TaskStepOutput of run_step and of arun_step carries
in its response the task's full accumulated tool-output list, equal to the
sources field of the resulting task state. -/
theorem step_output_sources_accumulated (w : FunctionCallingAgentWorker) (b : Backend)
    (sid : String) (step : TaskStep) (task : Task) (p : Task × TaskStepOutput) :
    (run_step w b sid step task = Except.ok p →
      p.2.output.sources = p.1.extra_state.sources) ∧
    (arun_step w b sid step task = Except.ok p →
      p.2.output.sources = p.1.extra_state.sources) := by
  constructor
  · intro h
    simp only [run_step] at h
    split at h
    · injection h with h1
      subst h1
      rfl
    · split at h
      · exact absurd h (by simp)
      · injection h with h1
        subst h1
        rfl
  · intro h
    simp only [arun_step] at h
    split at h
    · injection h with h1
      subst h1
      rfl
    · split at h
      · exact absurd h (by simp)
      · injection h with h1
        subst h1
        rfl

/-- Witness for C10: the concrete blocking and suspending step results. -/
theorem step_output_sources_accumulated_applied :
    resPair.2.output.sources = resPair.1.extra_state.sources ∧
    aresPair.2.output.sources = aresPair.1.extra_state.sources :=
  ⟨(step_output_sources_accumulated cw cbTool ("n1") cstep ctask resPair).1 rfl,
   (step_output_sources_accumulated cw cbTool ("n1") cstep ctask aresPair).2 rfl⟩

/-- Helper: a successful _call_function appends exactly one tool-role message
to the given buffer and exactly one ToolOutput to the given sources. -/
theorem call_function_ok_shape (tools : List BaseTool) (tc : ToolSelection)
    (memory : List ChatMessage) (sources : List ToolOutput)
    (m : List ChatMessage) (s : List ToolOutput)
    (h : _call_function tools tc memory sources = Except.ok (m, s)) :
    ∃ msg out, m = memory ++ [msg] ∧ s = sources ++ [out] ∧ msg.role = MessageRole.tool := by
  simp only [_call_function] at h
  split at h
  · exact absurd h (by simp)
  · split at h
    · exact absurd h (by simp)
    · injection h with h1
      injection h1 with hm hs
      subst hm
      subst hs
      exact ⟨_, _, rfl, rfl, rfl⟩

/-- C2 (amended): every non-terminal run_step appends exactly one ToolOutput to
the task's sources and ends the ephemeral buffer with exactly one tool-role
message after the backend's response message; the buffer therefore grows by
exactly two messages (assistant + tool) on a continuation step, which carries
no input, and by exactly three (user + assistant + tool) on the task's first
step, which carries the user's raw input. -/
theorem run_step_nonterminal_growth (w : FunctionCallingAgentWorker) (b : Backend)
    (sid : String) (step : TaskStep) (task : Task) (p : Task × TaskStepOutput)
    (h : run_step w b sid step task = Except.ok p) (hl : p.2.is_last = false) :
    p.1.extra_state.sources.length = task.extra_state.sources.length + 1 ∧
    p.1.extra_state.sources.dropLast = task.extra_state.sources ∧
    ((p.1.extra_state.new_memory.getLast?).map ChatMessage.role = some MessageRole.tool) ∧
    p.1.extra_state.new_memory.dropLast.dropLast
      = memoryAfterInput step task.extra_state.new_memory ∧
    (step.input = none →
      p.1.extra_state.new_memory.length = task.extra_state.new_memory.length + 2) ∧
    (step.input.isSome = true →
      p.1.extra_state.new_memory.length = task.extra_state.new_memory.length + 3) := by
  simp only [run_step] at h
  split at h
  · injection h with h1
    subst h1
    simp at hl
  · split at h
    · exact absurd h (by simp)
    · rename_i heq
      obtain ⟨msg, out, hm, hs, hrole⟩ := call_function_ok_shape _ _ _ _ _ _ heq
      injection h with h1
      subst h1
      refine ⟨?_, ?_, ?_, ?_, ?_, ?_⟩
      · rw [hs]
        simp
      · rw [hs]
        simp
      · rw [hm]
        simp [List.getLast?_concat, hrole]
      · rw [hm]
        simp [List.dropLast_concat]
      · intro hin
        rw [hm]
        simp [memoryAfterInput, hin]
      · intro hin
        rw [hm]
        simp [memoryAfterInput, hin, add_user_step_to_memory]

/-- Counterexample to C2 as stated: on the concrete task's first non-terminal
step (which carries the raw input "hi"), the ephemeral buffer grows from 0 to
3 messages (user + assistant + tool), not by exactly 2. -/
theorem run_step_growth_claim_cex :
    ctask.extra_state.new_memory.length = 0 ∧
    ((run_step cw cbTool ("n1") cstep ctask).toOption.map
      (fun p => (p.2.is_last, p.1.extra_state.new_memory.length))) = some (false, 3) ∧
    (3 : Nat) ≠ 0 + 2 :=
  ⟨rfl, rfl, by decide⟩

/-- Witness for the amended C2: the concrete non-terminal first step appends
one ToolOutput, ends the buffer with a tool-role message, and grows the buffer
by three since the step carries input. -/
theorem run_step_nonterminal_growth_applied :
    resPair.1.extra_state.sources.length = ctask.extra_state.sources.length + 1 ∧
    resPair.1.extra_state.sources.dropLast = ctask.extra_state.sources ∧
    ((resPair.1.extra_state.new_memory.getLast?).map ChatMessage.role
      = some MessageRole.tool) ∧
    resPair.1.extra_state.new_memory.dropLast.dropLast
      = memoryAfterInput cstep ctask.extra_state.new_memory ∧
    (cstep.input = none →
      resPair.1.extra_state.new_memory.length = ctask.extra_state.new_memory.length + 2) ∧
    (cstep.input.isSome = true →
      resPair.1.extra_state.new_memory.length = ctask.extra_state.new_memory.length + 3) :=
  run_step_nonterminal_growth cw cbTool ("n1") cstep ctask resPair rfl rfl

/-- C6 (amended): initialize_step sets the call counter n_function_calls to
zero and run_step never modifies it, so after any number of steps it still
equals zero rather than the number of tool calls made. -/
theorem n_function_calls_constant (w : FunctionCallingAgentWorker) (b : Backend)
    (sid iid : String) (step : TaskStep) (task : Task) (p : Task × TaskStepOutput) :
    ((initialize_step task iid).1.extra_state.n_function_calls = 0) ∧
    (run_step w b sid step task = Except.ok p →
      p.1.extra_state.n_function_calls = task.extra_state.n_function_calls) := by
  refine ⟨rfl, ?_⟩
  intro h
  simp only [run_step] at h
  split at h
  · injection h with h1
    subst h1
    rfl
  · split at h
    · exact absurd h (by simp)
    · injection h with h1
      subst h1
      rfl

/-- Counterexample to C6 as stated: the concrete step makes one tool call
(is_last is false and one ToolOutput is recorded), yet the counter stays at 0
instead of being incremented to 1. -/
theorem n_function_calls_claim_cex :
    ctask.extra_state.n_function_calls = 0 ∧
    ((run_step cw cbTool ("n1") cstep ctask).toOption.map
      (fun p => (p.2.is_last, p.1.extra_state.sources.length,
                 p.1.extra_state.n_function_calls))) = some (false, 1, 0) ∧
    (0 : Nat) ≠ 0 + 1 :=
  ⟨rfl, rfl, by decide⟩

/-- Witness for the amended C6: on the concrete tool-calling step the counter
is 0 after initialization and unchanged by run_step. -/
theorem n_function_calls_constant_applied :
    ((initialize_step ctask ("i0")).1.extra_state.n_function_calls = 0) ∧
    resPair.1.extra_state.n_function_calls = ctask.extra_state.n_function_calls :=
  ⟨(n_function_calls_constant cw cbTool ("n1") ("i0") cstep ctask resPair).1,
   (n_function_calls_constant cw cbTool ("n1") ("i0") cstep ctask resPair).2 rfl⟩

/-- Helper: a tool found by lookupToolByName belongs to the tool list. -/
theorem lookup_mem (tools : List BaseTool) (name : String) (t : BaseTool)
    (h : lookupToolByName tools name = some t) : t ∈ tools := by
  have hmem := List.mem_of_find?_eq_some h
  exact List.mem_reverse.mp hmem

/-- Helper: when a tool's suspending invocation agrees with its blocking one,
acall_tool agrees with call_tool. -/
theorem acall_tool_eq_call_tool (t : BaseTool) (args : List (String × String))
    (ht : t.acall = t.call) : acall_tool t args = call_tool t args := by
  simp [acall_tool, call_tool, adapt_to_async_tool, ht]

/-- Helper: under tool sync/async agreement, acall_tool_with_selection agrees
with call_tool_with_selection. -/
theorem acall_selection_eq (tc : ToolSelection) (tools : List BaseTool)
    (ht : ∀ t ∈ tools, t.acall = t.call) :
    acall_tool_with_selection tc tools = call_tool_with_selection tc tools := by
  simp only [acall_tool_with_selection, call_tool_with_selection]
  cases hfind : lookupToolByName tools tc.tool_name with
  | none => rfl
  | some t =>
      have hcc := acall_tool_eq_call_tool t tc.tool_kwargs
        (ht t (lookup_mem tools tc.tool_name t hfind))
      simp [hcc]

/-- Helper: under tool sync/async agreement, _acall_function agrees with
_call_function. -/
theorem acall_function_eq (tools : List BaseTool) (tc : ToolSelection)
    (memory : List ChatMessage) (sources : List ToolOutput)
    (ht : ∀ t ∈ tools, t.acall = t.call) :
    _acall_function tools tc memory sources = _call_function tools tc memory sources := by
  simp only [_acall_function, _call_function]
  rw [acall_selection_eq tc tools ht]

/-- C9: when the backend's suspending call agrees with its blocking call and
every resolved tool's suspending invocation agrees with its blocking one, the
suspending step arun_step and the blocking step run_step produce identical
results: the same StepResult and the same task-state mutations. -/
theorem arun_step_eq_run_step (w : FunctionCallingAgentWorker) (b ab : Backend)
    (sid : String) (step : TaskStep) (task : Task)
    (hb : ∀ tools hist, ab tools hist = b tools hist)
    (ht : ∀ t ∈ get_tools w task.input, t.acall = t.call) :
    arun_step w ab sid step task = run_step w b sid step task := by
  have hfun : _acall_function (get_tools w task.input)
      = _call_function (get_tools w task.input) := by
    funext tc memory sources
    exact acall_function_eq (get_tools w task.input) tc memory sources ht
  simp only [arun_step, run_step, hb, hfun]

/-- Witness for C9: on the concrete tool-selecting backend (used for both
modes) and the concrete echo tool, the two step functions agree. -/
theorem arun_step_eq_run_step_applied :
    arun_step cw cbTool ("n1") cstep ctask = run_step cw cbTool ("n1") cstep ctask :=
  arun_step_eq_run_step cw cbTool cbTool ("n1") cstep ctask (fun _ _ => rfl)
    (by
      intro t htm
      simp [get_tools, cw, adapt_to_async_tool] at htm
      subst htm
      rfl)

end LlamaAgent
